import Mathlib

/-!
Verification of the PharmaVigil dashboard client (Dashboard.jsx) and the
spec-level orchestration contracts it observes.

The frontend state and handlers below are shallow embeddings of the React
component in the repository's dashboard page: the WebSocket `onmessage`
handler (`connectWebSocket`), the drip-feed step recorder, the word-by-word
streaming effect, `handleInvestigate`, `getPriorityClass`, and the PRR
rendering expressions.  Backend components that exist only behind the
HTTP/WS boundary (Run registry pub/sub, route classifier adapter, signal
extractor, pipeline failure semantics) are modelled from the spec and
marked as such in their doc comments.
-/

/-- One reasoning step as delivered over the WebSocket (fields as in the JSON
payload rendered by the dashboard). -/
structure ReasoningStep where
  agent : String
  step_type : String
  content : String
  timestamp : String
deriving DecidableEq

/-- One detected signal as rendered by the dashboard (fields as in the JSON
payload: `drug_name`, `reaction_term`, `prr`, `case_count`, `spike_ratio`,
`priority`). -/
structure Signal where
  drug_name : String
  reaction_term : String
  prr : ℚ
  case_count : ℕ
  spike_ratio : ℚ
  priority : String
deriving DecidableEq

/-- One safety report as rendered by the dashboard. -/
structure Report where
  drug_name : String
  reaction_term : String
  risk_level : String
  report_markdown : String
deriving DecidableEq

/-- The payload `d` of a `progress` WebSocket message (non-reasoning case).
`none` models an absent or JS-falsy field, matching the guards
`if (d.status)`, `if (d.route)`, `if (d.direct_response)`. -/
structure ProgressDelta where
  status : Option String
  route : Option String
  direct_response : Option String
deriving DecidableEq

/-- The events processed by the dashboard's subscription message handler
(`ws.onmessage` in `connectWebSocket`), plus the asynchronous response of
the terminal `GET /api/investigations/{id}` fetch that the handler issues
on a terminal status, modelled as a delivered event of its own. -/
inductive WsMsg where
  | currentState (st : String) (reasoning_trace : Option (List ReasoningStep))
  | reasoningBatch (steps : List ReasoningStep)
  | progress (d : ProgressDelta)
  | fetchResult (sigs : Option (List Signal)) (reps : Option (List Report))
      (dr : Option String) (trace : Option (List ReasoningStep))
deriving DecidableEq

/-- The dashboard component's client state (the `useState`/`useRef` cells of
the Dashboard component that the handlers under verification touch). -/
structure DashState where
  query : String
  status : String
  route : String
  reasoningSteps : List ReasoningStep
  displayedSteps : List ReasoningStep
  stepQueue : List ReasoningStep
  queuedCount : ℕ
  signals : List Signal
  reports : List Report
  directResponse : String
  streamedResponse : String
  isStreaming : Bool
  fullResponse : String
  wsMessages : List ProgressDelta
  selectedReport : Option ℕ
  showSuggestions : Bool
  statusMessageIdx : ℕ
deriving DecidableEq

/-- The `ws.onmessage` handler of `connectWebSocket`:
`current_state` sets the status and (when present) replaces the reasoning
trace; a `progress` message with `d.type === 'reasoning'` appends `d.steps`
and returns; any other `progress` message adopts the carried status, route
and direct response and appends the delta to `wsMessages`; the terminal
fetch response replaces signals, reports, direct response and reasoning
trace with the fetched investigation's fields when present. -/
def handleWsMsg (s : DashState) (m : WsMsg) : DashState :=
  match m with
  | .currentState st tr =>
      { s with status := st, reasoningSteps := tr.getD s.reasoningSteps }
  | .reasoningBatch steps =>
      { s with reasoningSteps := s.reasoningSteps ++ steps }
  | .progress d =>
      { s with
        status := d.status.getD s.status,
        route := d.route.getD s.route,
        directResponse := d.direct_response.getD s.directResponse,
        wsMessages := s.wsMessages ++ [d] }
  | .fetchResult sigs reps dr tr =>
      { s with
        signals := sigs.getD s.signals,
        reports := reps.getD s.reports,
        directResponse := dr.getD s.directResponse,
        reasoningSteps := tr.getD s.reasoningSteps }

/-- Processing a whole sequence of delivered events. -/
def handleWsMsgs (s : DashState) (ms : List WsMsg) : DashState :=
  ms.foldl handleWsMsg s

/-- Rank of a status in the forward order created, routing, running,
complete/error of the spec's Run status enum. -/
def statusRank (st : String) : ℕ :=
  if st = "complete" ∨ st = "error" then 3
  else if st = "running" then 2
  else if st = "routing" then 1
  else 0

/-- Terminal statuses, as tested by the handler (`d.status === 'complete' ||
d.status === 'error'`). -/
def isTerminalStatus (st : String) : Bool :=
  st = "complete" || st = "error"

/-- The status a delivered event carries into `setStatus`, if any:
a `current_state` message always carries its status; a non-reasoning
`progress` delta carries `d.status` when truthy; no other event sets the
status. -/
def carriedStatus : WsMsg → Option String
  | .currentState st _ => some st
  | .progress d => d.status
  | _ => none

/-- The sequence of status values the client passes through while processing
a sequence of delivered events. -/
def statusTrace : DashState → List WsMsg → List String
  | s, [] => [s.status]
  | s, m :: ms => s.status :: statusTrace (handleWsMsg s m) ms

/-- Forward delivery: every delivered event carries a status whose rank is at
least the rank of the client's status at the moment it is processed. -/
def forwardDelivery : DashState → List WsMsg → Bool
  | _, [] => true
  | s, m :: ms =>
      (match carriedStatus m with
       | none => true
       | some st => decide (statusRank s.status ≤ statusRank st)) &&
      forwardDelivery (handleWsMsg s m) ms

/-- Whether a delivered event is a `progress` reasoning delta. -/
def isReasoningBatch : WsMsg → Bool
  | .reasoningBatch _ => true
  | _ => false

/-- The dashboard state on mount (initial `useState` values). -/
def initialDash : DashState :=
  { query := "", status := "idle", route := "", reasoningSteps := [],
    displayedSteps := [], stepQueue := [], queuedCount := 0, signals := [],
    reports := [], directResponse := "", streamedResponse := "",
    isStreaming := false, fullResponse := "", wsMessages := [],
    selectedReport := none, showSuggestions := false, statusMessageIdx := 0 }

/-- A sample reasoning step used in concrete witnesses. -/
def sampleStep : ReasoningStep :=
  { agent := "signal_scanner", step_type := "thinking",
    content := "Scanning FAERS for anomalies", timestamp := "t1" }

/-- The anti-duplicate safeguard of the drip-feed step recorder
(`setDisplayedSteps` inside `revealNext`): the incoming step is appended
unless an already-stored step has the same `content` and `timestamp`. -/
def recordStep (prev : List ReasoningStep) (next : ReasoningStep) :
    List ReasoningStep :=
  if prev.any (fun p => p.content == next.content && p.timestamp == next.timestamp)
  then prev
  else prev ++ [next]

/-- The word array of the streaming effect: `directResponse.split(/( )/)`,
which splits at every single space and keeps each space as a token of its
own (with an empty token between two consecutive spaces). Char-level
worker; the accumulator collects the current non-separator segment. -/
def splitSpacesAux : List Char → List Char → List (List Char)
  | acc, [] => [acc.reverse]
  | acc, c :: rest =>
      if c = ' ' then acc.reverse :: [c] :: splitSpacesAux [] rest
      else splitSpacesAux (c :: acc) rest

/-- String-level `split(/( )/)` keeping the space separators. -/
def jsSplitKeepSpaces (s : String) : List String :=
  (splitSpacesAux [] s.data).map String.mk

/-- The accumulated text produced by the streaming interval: each tick joins
the next slice of 3 tokens (`words.slice(index, index + 3).join('')`) and
appends it to the revealed text; this function is the total accumulation
over all ticks. -/
def streamLoop : List String → String
  | [] => ""
  | [a] => a
  | [a, b] => a ++ b
  | a :: b :: c :: rest => a ++ b ++ c ++ streamLoop rest

/-- Whitespace as stripped by JavaScript `String.prototype.trim` (the ASCII
part relevant to query input). -/
def isJsSpace (c : Char) : Bool :=
  c = ' ' || c = '\t' || c = '\n' || c = '\r' || c = '\x0b' || c = '\x0c'

/-- JavaScript `query.trim()`: strip whitespace from both ends. -/
def jsTrim (s : String) : String :=
  String.mk (((s.data.dropWhile isJsSpace).reverse.dropWhile isJsSpace).reverse)

/-- The state reset performed by `handleInvestigate` before issuing the
`POST /api/investigate` request. -/
def resetForInvestigate (s : DashState) : DashState :=
  { s with
    status := "starting", wsMessages := [], reasoningSteps := [],
    displayedSteps := [], stepQueue := [], queuedCount := 0, signals := [],
    reports := [], directResponse := "", streamedResponse := "",
    isStreaming := false, fullResponse := "", route := "",
    selectedReport := none, showSuggestions := false, statusMessageIdx := 0 }

/-- `handleInvestigate`: returns the new client state and the query text of
the HTTP request body, or `none` when no request is issued.  The guard
`if (!query.trim()) return;` exits before any state is touched. -/
def handleInvestigate (s : DashState) : DashState × Option String :=
  if jsTrim s.query = "" then (s, none)
  else (resetForInvestigate s, some (jsTrim s.query))

/-- `getPriorityClass`: CSS badge class from a signal's priority string
(after `toUpperCase`), defaulting to `badge-info`. -/
def getPriorityClass (priority : String) : String :=
  if priority.toUpper = "CRITICAL" then "badge-critical"
  else if priority.toUpper = "HIGH" then "badge-high"
  else if priority.toUpper = "MEDIUM" then "badge-medium"
  else if priority.toUpper = "LOW" then "badge-low"
  else "badge-info"

/-- JavaScript `q.toFixed(1)` for a non-negative rational: round to one
decimal place and print `intPart.digit`. -/
def jsToFixed1 (q : ℚ) : String :=
  toString (⌊q * 10 + 1 / 2⌋ / 10) ++ "." ++ toString (⌊q * 10 + 1 / 2⌋ % 10)

/-- JavaScript `q.toFixed(2)` for a non-negative rational. -/
def jsToFixed2 (q : ℚ) : String :=
  toString (⌊q * 100 + 1 / 2⌋ / 100) ++ "." ++
    toString (⌊q * 100 + 1 / 2⌋ % 100 / 10) ++ toString (⌊q * 100 + 1 / 2⌋ % 10)

/-- The signal-card PRR rendering of the main dashboard:
`sig.prr > 100 ? '∞' : sig.prr?.toFixed(1)`. -/
def renderPRRCard (prr : ℚ) : String :=
  if prr > 100 then "∞" else jsToFixed1 prr

/-- The `SignalTable` PRR rendering of the analytics dashboard variant:
`typeof signal.prr === 'number' ? signal.prr.toFixed(2) : signal.prr`,
i.e. every numeric PRR is printed with two decimals, with no infinity
sentinel branch. -/
def renderPRRTable (prr : ℚ) : String :=
  jsToFixed2 prr

/-- Status enum of a backend Run, from the spec's data model. -/
inductive RunStatus where
  | created | routing | running | complete | error
deriving DecidableEq

/-- Terminal Run statuses. -/
def RunStatus.isTerminal : RunStatus → Bool
  | .complete => true
  | .error => true
  | _ => false

/-- Modelled from the spec: the backend Run record owned by the Run
Registry (the registry itself is not part of the frontend sources). -/
structure Run where
  status : RunStatus
  reasoningTrace : List ReasoningStep
  signals : List Signal
  reports : List Report
  directResponse : Option String
  errorMsg : Option String
deriving DecidableEq

/-- Events delivered to one subscriber of a Run. -/
inductive SubEvent where
  | currentState (snap : Run)
  | progress (d : ProgressDelta)
  | streamEnd
deriving DecidableEq

/-- Modelled from the spec: `subscribe(runId)` of the Run Registry & Pub/Sub
Hub (not in the frontend sources).  The first delivered event is always a
full current-state snapshot; a subscriber attaching to a terminal Run
receives the snapshot and then a stream-end signal; otherwise the snapshot
is followed by the deltas published afterwards. -/
def subscribeStream (r : Run) (futureDeltas : List ProgressDelta) :
    List SubEvent :=
  SubEvent.currentState r ::
    (if r.status.isTerminal then [SubEvent.streamEnd]
     else futureDeltas.map SubEvent.progress)

/-- The fixed route enum of the spec. -/
inductive Route where
  | full_scan | investigate | data_query | report | general | greeting
  | out_of_scope
deriving DecidableEq

/-- Wire name of a route. -/
def Route.toName : Route → String
  | .full_scan => "full_scan"
  | .investigate => "investigate"
  | .data_query => "data_query"
  | .report => "report"
  | .general => "general"
  | .greeting => "greeting"
  | .out_of_scope => "out_of_scope"

/-- The 7 known route names. -/
def knownRouteNames : List String :=
  ["full_scan", "investigate", "data_query", "report", "general",
   "greeting", "out_of_scope"]

/-- Modelled from the spec: the Route Classifier adapter's mapping of the
raw router-agent output onto the fixed enum of 7 routes (the adapter is
not in the frontend sources); any value outside the known set maps to
`out_of_scope` rather than failing. -/
def mapRouterOutput (raw : String) : Route :=
  if raw = "full_scan" then .full_scan
  else if raw = "investigate" then .investigate
  else if raw = "data_query" then .data_query
  else if raw = "report" then .report
  else if raw = "general" then .general
  else if raw = "greeting" then .greeting
  else .out_of_scope

/-- Priority enum of a Signal, from the spec's data model. -/
inductive SignalPriority where
  | LOW | MEDIUM | HIGH | CRITICAL
deriving DecidableEq

/-- Modelled from the spec: the Signal Extractor's priority assignment, a
pure function of `spikeRatio` and `ratioScore` under fixed threshold
bands (the extractor is not in the frontend sources; the concrete band
boundaries instantiate the spec's "ratioScore derived priority bands"). -/
def assignPriority (spikeScore ratioScore : ℚ) : SignalPriority :=
  if 10 ≤ ratioScore ∨ 5 ≤ spikeScore then .CRITICAL
  else if 5 ≤ ratioScore ∨ 3 ≤ spikeScore then .HIGH
  else if 2 ≤ ratioScore then .MEDIUM
  else .LOW

/-- A Signal as produced by the extractor's layers (spec data model). -/
structure PipeSignal where
  subjectName : String
  eventTerm : String
  ratioScore : ℚ
  spikeScore : ℚ
  caseCount : ℕ
  priority : SignalPriority
deriving DecidableEq

/-- Modelled from the spec: the structured extraction layer — parses
machine-readable tool-result fields directly and assigns priority through
`assignPriority`. -/
def structuredLayerSignal (subject event : String) (ratioScore spikeScore : ℚ)
    (caseCount : ℕ) : PipeSignal :=
  { subjectName := subject, eventTerm := event, ratioScore := ratioScore,
    spikeScore := spikeScore, caseCount := caseCount,
    priority := assignPriority spikeScore ratioScore }

/-- Modelled from the spec: the text-mining fallback layer — reconstructs
the numeric fields from prose markers and assigns priority through the
same `assignPriority` thresholds. -/
def textMineLayerSignal (subject event : String) (ratioScore spikeScore : ℚ)
    (caseCount : ℕ) : PipeSignal :=
  { subjectName := subject, eventTerm := event, ratioScore := ratioScore,
    spikeScore := spikeScore, caseCount := caseCount,
    priority := assignPriority spikeScore ratioScore }

/-- Outcome of executing one pipeline stage against the Agent Gateway. -/
inductive StageResult where
  | ok (steps : List ReasoningStep) (sigs : List Signal) (reps : List Report)
  | agentUnavailable (msg : String)
deriving DecidableEq

/-- Modelled from the spec: the Pipeline State Machine's handling of one
stage outcome (the state machine is not in the frontend sources).  A
successful stage appends its reasoning steps, signals and reports; an
`AgentUnavailable` failure transitions the Run directly to `error` with a
user-facing message, leaving all previously appended work in place. -/
def applyStageResult (r : Run) (res : StageResult) : Run :=
  match res with
  | .ok steps sigs reps =>
      { r with
        status := .running,
        reasoningTrace := r.reasoningTrace ++ steps,
        signals := r.signals ++ sigs,
        reports := r.reports ++ reps }
  | .agentUnavailable msg =>
      { r with status := .error, errorMsg := some msg }

/-- A terminal Run used in concrete witnesses. -/
def sampleTerminalRun : Run :=
  { status := .complete, reasoningTrace := [sampleStep], signals := [],
    reports := [], directResponse := some "done", errorMsg := none }

theorem handleWsMsg_status (s : DashState) (m : WsMsg) :
    (handleWsMsg s m).status = (carriedStatus m).getD s.status := by
  cases m <;> rfl

theorem statusTrace_head (s : DashState) (ms : List WsMsg) :
    (statusTrace s ms).head? = some s.status := by
  cases ms <;> rfl

theorem str_data_append (a b : String) : (a ++ b).data = a.data ++ b.data := by
  cases a; cases b; rfl

theorem str_ext (a b : String) (h : a.data = b.data) : a = b :=
  congrArg String.mk h

/-- C1: the claim as stated is false on the handler: after a delivered event
has set the status to the terminal value `complete`, processing a further
delivered event carrying status `running` moves the status back to the
non-terminal value `running` — the handler adopts whatever status an event
carries and never enforces monotonicity. -/
theorem c1_counterexample :
    (handleWsMsgs initialDash
      [WsMsg.progress ⟨some "complete", none, none⟩]).status = "complete" ∧
    isTerminalStatus "complete" = true ∧
    (handleWsMsgs initialDash
      [WsMsg.progress ⟨some "complete", none, none⟩,
       WsMsg.progress ⟨some "running", none, none⟩]).status = "running" ∧
    isTerminalStatus "running" = false := by
  refine ⟨rfl, rfl, rfl, rfl⟩

/-- C1 (amended): the handler adopts the status carried by each delivered
event; therefore, whenever the delivered events carry statuses whose rank
never falls below the client's current status — as forward publishes of
the backend do — the sequence of statuses the client passes through only
moves forward through created, routing, running, complete/error and never
regresses; in particular once a terminal status is reached no such event
lowers it. -/
theorem c1_status_forward_of_forward_delivery (s : DashState) (ms : List WsMsg)
    (h : forwardDelivery s ms = true) :
    List.Chain' (fun a b => statusRank a ≤ statusRank b) (statusTrace s ms) ∧
    statusRank s.status ≤ statusRank (handleWsMsgs s ms).status := by
  induction ms generalizing s with
  | nil =>
      exact ⟨List.chain'_singleton s.status, le_refl _⟩
  | cons m ms ih =>
      rw [forwardDelivery, Bool.and_eq_true] at h
      have hstep : statusRank s.status ≤ statusRank (handleWsMsg s m).status := by
        rw [handleWsMsg_status]
        cases hc : carriedStatus m with
        | none => exact le_refl _
        | some st =>
            rw [hc] at h
            exact of_decide_eq_true h.1
      have htail := ih (handleWsMsg s m) h.2
      constructor
      · show List.Chain' _ (s.status :: statusTrace (handleWsMsg s m) ms)
        rw [List.chain'_cons']
        refine ⟨?_, htail.1⟩
        intro y hy
        rw [statusTrace_head] at hy
        cases hy
        exact hstep
      · show statusRank s.status ≤
          statusRank (handleWsMsgs (handleWsMsg s m) ms).status
        exact le_trans hstep htail.2

/-- C1 witness: a concrete forward-delivered sequence (routing, then
complete) from the initial state, for which the status chain is forward
and the final status rank dominates the initial one. -/
theorem c1_witness :
    List.Chain' (fun a b => statusRank a ≤ statusRank b)
      (statusTrace initialDash
        [WsMsg.progress ⟨some "routing", none, none⟩,
         WsMsg.progress ⟨some "complete", none, none⟩]) ∧
    statusRank initialDash.status ≤
      statusRank (handleWsMsgs initialDash
        [WsMsg.progress ⟨some "routing", none, none⟩,
         WsMsg.progress ⟨some "complete", none, none⟩]).status :=
  c1_status_forward_of_forward_delivery initialDash
    [WsMsg.progress ⟨some "routing", none, none⟩,
     WsMsg.progress ⟨some "complete", none, none⟩] (by decide)

/-- C2: the claim as stated is false on the handler: after one reasoning
step is stored, processing a `current_state` update whose
`reasoning_trace` is the empty array replaces the stored trace wholesale
and shortens it from length 1 to length 0. -/
theorem c2_counterexample :
    (handleWsMsg initialDash (WsMsg.reasoningBatch [sampleStep])).reasoningSteps.length = 1 ∧
    (handleWsMsg (handleWsMsg initialDash (WsMsg.reasoningBatch [sampleStep]))
      (WsMsg.currentState "running" (some []))).reasoningSteps.length = 0 := by
  refine ⟨rfl, rfl⟩

/-- C2 (amended): only `progress` reasoning deltas are pure appends —
processing any sequence of them extends `reasoningSteps` with the stored
list as an unchanged prefix and leaves `signals`, `reports` and `status`
untouched; `current_state` snapshots and the terminal investigation fetch
instead replace the stored sequences wholesale (and so may shorten them,
including after a terminal status). -/
theorem c2_reasoning_deltas_only_grow (s : DashState) (ms : List WsMsg)
    (h : ∀ m ∈ ms, isReasoningBatch m = true) :
    (∃ t, (handleWsMsgs s ms).reasoningSteps = s.reasoningSteps ++ t) ∧
    (handleWsMsgs s ms).signals = s.signals ∧
    (handleWsMsgs s ms).reports = s.reports ∧
    (handleWsMsgs s ms).status = s.status := by
  induction ms generalizing s with
  | nil =>
      exact ⟨⟨[], (List.append_nil _).symm⟩, rfl, rfl, rfl⟩
  | cons m ms ih =>
      have hm := h m (List.mem_cons_self m ms)
      have hrest : ∀ m' ∈ ms, isReasoningBatch m' = true :=
        fun m' hm' => h m' (List.mem_cons_of_mem m hm')
      cases m with
      | currentState st tr => simp [isReasoningBatch] at hm
      | progress d => simp [isReasoningBatch] at hm
      | fetchResult sigs reps dr tr => simp [isReasoningBatch] at hm
      | reasoningBatch steps =>
          have ih' := ih (handleWsMsg s (WsMsg.reasoningBatch steps)) hrest
          obtain ⟨⟨t, ht⟩, hsig, hrep, hst⟩ := ih'
          refine ⟨⟨steps ++ t, ?_⟩, ?_, ?_, ?_⟩
          · show (handleWsMsgs (handleWsMsg s (WsMsg.reasoningBatch steps)) ms).reasoningSteps = _
            rw [ht]
            show s.reasoningSteps ++ steps ++ t = s.reasoningSteps ++ (steps ++ t)
            rw [List.append_assoc]
          · exact hsig
          · exact hrep
          · exact hst

/-- C2 witness: a concrete sequence consisting of one reasoning delta,
processed from the initial state: the trace extends the stored list and
signals, reports and status are unchanged. -/
theorem c2_witness :
    (∃ t, (handleWsMsgs initialDash
      [WsMsg.reasoningBatch [sampleStep]]).reasoningSteps =
        initialDash.reasoningSteps ++ t) ∧
    (handleWsMsgs initialDash [WsMsg.reasoningBatch [sampleStep]]).signals =
      initialDash.signals ∧
    (handleWsMsgs initialDash [WsMsg.reasoningBatch [sampleStep]]).reports =
      initialDash.reports ∧
    (handleWsMsgs initialDash [WsMsg.reasoningBatch [sampleStep]]).status =
      initialDash.status :=
  c2_reasoning_deltas_only_grow initialDash
    [WsMsg.reasoningBatch [sampleStep]] (by decide)

/-- C3: the drip-feed step recorder is idempotent on the (content,
timestamp) deduplication key — delivering a step whose content and
timestamp equal those of an already-delivered step leaves the stored list
exactly as it was after the first delivery. -/
theorem c3_recorder_idempotent (l : List ReasoningStep) (s t : ReasoningStep)
    (hc : t.content = s.content) (ht : t.timestamp = s.timestamp) :
    recordStep (recordStep l s) t = recordStep l s := by
  have hkey : ∀ p : ReasoningStep,
      (p.content == t.content && p.timestamp == t.timestamp) =
      (p.content == s.content && p.timestamp == s.timestamp) := by
    intro p; rw [hc, ht]
  by_cases hl : l.any (fun p => p.content == s.content && p.timestamp == s.timestamp) = true
  · have hsl : recordStep l s = l := by
      unfold recordStep
      rw [if_pos hl]
    rw [hsl]
    unfold recordStep
    rw [if_pos]
    simpa only [hkey] using hl
  · have hsl : recordStep l s = l ++ [s] := by
      unfold recordStep
      rw [if_neg hl]
    rw [hsl]
    unfold recordStep
    rw [if_pos]
    rw [List.any_append]
    simp only [hkey, List.any_cons, List.any_nil, Bool.or_false]
    simp

/-- C3 witness: delivering the sample step twice to an empty recorder
stores it exactly once. -/
theorem c3_witness :
    recordStep (recordStep [] sampleStep) sampleStep = recordStep [] sampleStep :=
  c3_recorder_idempotent [] sampleStep sampleStep rfl rfl

/-- C4: for every subscription, the first delivered event is a full
current-state snapshot of the Run (even if the Run is already terminal),
and a subscriber attaching after the Run reaches a terminal status
receives exactly the terminal snapshot followed by a stream-end signal —
a finite stream, so it never waits indefinitely. -/
theorem c4_subscribe_snapshot_first (r : Run) (futureDeltas : List ProgressDelta) :
    (subscribeStream r futureDeltas).head? = some (SubEvent.currentState r) ∧
    (r.status.isTerminal = true →
      subscribeStream r futureDeltas =
        [SubEvent.currentState r, SubEvent.streamEnd]) := by
  constructor
  · rfl
  · intro h
    unfold subscribeStream
    rw [if_pos h]

/-- C4 witness: a subscriber attaching to a concrete completed Run receives
the terminal snapshot and then the stream-end, even though deltas were
offered. -/
theorem c4_witness :
    subscribeStream sampleTerminalRun [⟨some "running", none, none⟩] =
      [SubEvent.currentState sampleTerminalRun, SubEvent.streamEnd] :=
  (c4_subscribe_snapshot_first sampleTerminalRun
    [⟨some "running", none, none⟩]).2 rfl

/-- C5: the route classification result always lies in the fixed enum of 7
routes; every router output outside the known set maps to `out_of_scope`
rather than failing, so the unknown value is never propagated downstream
as-is; and every known route name maps to itself. -/
theorem c5_route_closed_world (raw : String) :
    (mapRouterOutput raw).toName ∈ knownRouteNames ∧
    (raw ∉ knownRouteNames → mapRouterOutput raw = Route.out_of_scope) ∧
    (raw ∈ knownRouteNames → (mapRouterOutput raw).toName = raw) := by
  refine ⟨?_, ?_, ?_⟩
  · cases h : mapRouterOutput raw <;> simp [Route.toName, knownRouteNames]
  · intro hraw
    unfold mapRouterOutput
    simp only [knownRouteNames, List.mem_cons, List.not_mem_nil, or_false] at hraw
    push_neg at hraw
    obtain ⟨h1, h2, h3, h4, h5, h6, h7⟩ := hraw
    rw [if_neg h1, if_neg h2, if_neg h3, if_neg h4, if_neg h5, if_neg h6]
  · intro hraw
    simp only [knownRouteNames, List.mem_cons, List.not_mem_nil, or_false] at hraw
    rcases hraw with rfl | rfl | rfl | rfl | rfl | rfl | rfl <;> rfl

/-- C5 witness: the unknown router output "banana" maps to `out_of_scope`,
and the known output "full_scan" is preserved verbatim. -/
theorem c5_witness :
    mapRouterOutput "banana" = Route.out_of_scope ∧
    (mapRouterOutput "full_scan").toName = "full_scan" :=
  ⟨(c5_route_closed_world "banana").2.1 (by decide),
   (c5_route_closed_world "full_scan").2.2 (by decide)⟩

/-- C6: priority is a pure deterministic function of the spike ratio and the
ratio score under fixed thresholds — two Signals built from equal numeric
values receive equal priority, regardless of whether the structured parse
layer or the text-mining fallback supplied the values. -/
theorem c6_priority_pure_function (sub1 ev1 sub2 ev2 : String)
    (r1 sp1 r2 sp2 : ℚ) (k1 k2 : ℕ)
    (hr : r1 = r2) (hsp : sp1 = sp2) :
    (structuredLayerSignal sub1 ev1 r1 sp1 k1).priority =
      (textMineLayerSignal sub2 ev2 r2 sp2 k2).priority ∧
    (structuredLayerSignal sub1 ev1 r1 sp1 k1).priority =
      assignPriority sp1 r1 := by
  subst hr; subst hsp
  exact ⟨rfl, rfl⟩

/-- C6 witness: a structured-layer signal and a text-mined signal for
different subjects but equal numeric values carry the same priority. -/
theorem c6_witness :
    (structuredLayerSignal "Cardizol-X" "cardiac arrest" 12 1 40).priority =
      (textMineLayerSignal "Neurofen-Plus" "headache" 12 1 7).priority ∧
    (structuredLayerSignal "Cardizol-X" "cardiac arrest" 12 1 40).priority =
      assignPriority 1 12 :=
  c6_priority_pure_function "Cardizol-X" "cardiac arrest" "Neurofen-Plus"
    "headache" 12 1 12 1 40 7 rfl rfl

/-- C7: a stage failing with AgentUnavailable transitions the Run directly
to status error carrying the user-facing message, and every reasoning
step, signal and report appended before the failure remains exactly in
place — nothing already produced is discarded or retracted. -/
theorem c7_agent_unavailable_preserves_work (r : Run) (msg : String) :
    (applyStageResult r (StageResult.agentUnavailable msg)).status = RunStatus.error ∧
    (applyStageResult r (StageResult.agentUnavailable msg)).errorMsg = some msg ∧
    (applyStageResult r (StageResult.agentUnavailable msg)).reasoningTrace =
      r.reasoningTrace ∧
    (applyStageResult r (StageResult.agentUnavailable msg)).signals = r.signals ∧
    (applyStageResult r (StageResult.agentUnavailable msg)).reports = r.reports :=
  ⟨rfl, rfl, rfl, rfl, rfl⟩

theorem dot_mem_jsToFixed1 (q : ℚ) : '.' ∈ (jsToFixed1 q).data := by
  unfold jsToFixed1
  simp only [str_data_append, List.mem_append]
  left; right
  decide

/-- C8: the claim as stated is false for the `SignalTable` rendering of the
analytics dashboard variant: the numeric prr value 150 is greater than
100, yet it is rendered as "150.00" with no infinity sentinel — only the
signal-card rendering of the main dashboard maps values above 100 to the
infinity symbol. -/
theorem c8_counterexample :
    renderPRRTable 150 = "150.00" ∧ renderPRRTable 150 ≠ "∞" ∧
    (100 : ℚ) < 150 := by
  have hfl : ⌊(150 : ℚ) * 100 + 1 / 2⌋ = (15000 : ℤ) := by norm_num
  refine ⟨?_, ?_, by norm_num⟩
  · unfold renderPRRTable jsToFixed2
    rw [hfl]
    decide
  · unfold renderPRRTable jsToFixed2
    rw [hfl]
    decide

/-- C8 (amended): in the main dashboard's signal-card rendering, a numeric
prr value is rendered as the infinity symbol exactly when it exceeds 100,
and every other numeric prr is rendered as the value itself (via
toFixed(1)); the `SignalTable` of the analytics dashboard variant instead
renders every numeric prr with two decimals and no infinity sentinel. -/
theorem c8_card_infinity_sentinel (p : ℚ) :
    (renderPRRCard p = "∞" ↔ 100 < p) ∧
    (¬ 100 < p → renderPRRCard p = jsToFixed1 p) := by
  constructor
  · constructor
    · intro h
      by_contra hp
      unfold renderPRRCard at h
      rw [if_neg hp] at h
      have hdot := dot_mem_jsToFixed1 p
      rw [h] at hdot
      exact absurd hdot (by decide)
    · intro h
      unfold renderPRRCard
      rw [if_pos h]
  · intro h
    unfold renderPRRCard
    rw [if_neg h]

/-- C8 witness: the sentinel value 150 is rendered as the infinity symbol
by the signal-card rendering. -/
theorem c8_witness : renderPRRCard 150 = "∞" :=
  (c8_card_infinity_sentinel 150).1.mpr (by norm_num)

theorem data_streamLoop (ws : List String) :
    (streamLoop ws).data = (ws.map String.data).flatten := by
  induction ws using streamLoop.induct with
  | case1 => rfl
  | case2 a => simp [streamLoop]
  | case3 a b => simp [streamLoop, str_data_append]
  | case4 a b c rest ih => simp [streamLoop, str_data_append, ih]

theorem splitSpacesAux_flatten :
    ∀ (cs : List Char) (acc : List Char),
      (splitSpacesAux acc cs).flatten = acc.reverse ++ cs := by
  intro cs
  induction cs with
  | nil => intro acc; simp [splitSpacesAux]
  | cons c rest ih =>
      intro acc
      by_cases hc : c = ' '
      · subst hc; simp [splitSpacesAux, ih]
      · simp [splitSpacesAux, hc, ih (c :: acc)]

/-- C9: the word-by-word streaming reveal reconstructs the direct response
exactly — splitting the text on single spaces while keeping the
separators and re-concatenating it in chunks of three tokens yields the
original string, so (together with the final `setStreamedResponse(directResponse)`
assignment) the chunked streaming presentation is equivalent to showing
the direct response at once. -/
theorem c9_stream_reconstructs_response (s : String) :
    streamLoop (jsSplitKeepSpaces s) = s := by
  apply str_ext
  rw [data_streamLoop]
  unfold jsSplitKeepSpaces
  rw [List.map_map]
  have hcomp : (String.data ∘ String.mk) = (id : List Char → List Char) := rfl
  rw [hcomp, List.map_id]
  rw [splitSpacesAux_flatten]
  rfl

/-- C10: when the query consists only of whitespace (or is empty), invoking
`handleInvestigate` is a no-op — no HTTP request is issued and the whole
client state (status, signals, reports, reasoning steps, direct response,
route, investigation view) is left unchanged. -/
theorem c10_blank_query_noop (s : DashState)
    (h : ∀ c ∈ s.query.data, isJsSpace c = true) :
    handleInvestigate s = (s, none) := by
  have h1 : s.query.data.dropWhile isJsSpace = [] :=
    List.dropWhile_eq_nil_iff.mpr h
  have h2 : jsTrim s.query = "" := by
    unfold jsTrim
    rw [h1]
    rfl
  unfold handleInvestigate
  rw [if_pos h2]

/-- C10 witness: invoking the handler on a concrete state whose query is
" \t " (whitespace only) returns the state unchanged and issues no
request. -/
theorem c10_witness :
    handleInvestigate { initialDash with query := " \t " } =
      ({ initialDash with query := " \t " }, none) :=
  c10_blank_query_noop { initialDash with query := " \t " } (by decide)
